import Mathlib

/-!
Verification of the Renogy BLE integration core (`custom_components/renogy/ble.py`
and `custom_components/renogy_ha/ble.py`) against its specification.

The Python source is shallowly embedded: pure functions become Lean functions on
`Nat`/`Int`/`List Nat` (bytes are naturals below 256), stateful methods become
explicit state-passing functions, wall-clock timestamps become explicit `Nat`
parameters (seconds), and the external decoder `RenogyParser.parse` becomes an
arbitrary function parameter returning `Except Unit` (an `error` models a raised
exception).
-/

set_option maxRecDepth 4000

namespace Renogy

/-! ## Frame codec: `modbus_crc` and `create_modbus_read_request` (ble.py) -/

/-- One iteration of the inner `for _ in range(8)` loop of `modbus_crc`:
`crc = (crc >> 1) ^ 0xA001` when the low bit is set, else `crc >>= 1`. -/
def crcBitStep (crc : Nat) : Nat :=
  if crc &&& 0x0001 ≠ 0 then (crc >>> 1) ^^^ 0xA001 else crc >>> 1

/-- One iteration of the outer `for pos in data` loop of `modbus_crc`:
`crc ^= pos` followed by eight bit steps. -/
def crcByteStep (crc pos : Nat) : Nat :=
  crcBitStep^[8] (crc ^^^ pos)

/-- `modbus_crc(data)` from ble.py: Modbus CRC16, polynomial 0xA001, initial
value 0xFFFF, LSB-first; returns `(crc & 0xFF, (crc >> 8) & 0xFF)`,
i.e. the pair (low byte, high byte). -/
def modbus_crc (data : List Nat) : Nat × Nat :=
  let crc := data.foldl crcByteStep 0xFFFF
  (crc &&& 0xFF, (crc >>> 8) &&& 0xFF)

/-- `create_modbus_read_request(device_id, function_code, register, word_count)`
from ble.py: the 6-byte header followed by the CRC low byte then high byte. -/
def create_modbus_read_request
    (device_id function_code register word_count : Nat) : List Nat :=
  let frame := [device_id, function_code,
                (register >>> 8) &&& 0xFF, register &&& 0xFF,
                (word_count >>> 8) &&& 0xFF, word_count &&& 0xFF]
  let crc := modbus_crc frame
  frame ++ [crc.1, crc.2]

/-- Masking with `0xFF` is reduction modulo 256. -/
lemma and_255_eq_mod (x : Nat) : x &&& 255 = x % 256 := by
  have h := Nat.and_pow_two_sub_one_eq_mod x 8
  norm_num at h
  exact h

/-- Shifting right by 8 is division by 256. -/
lemma shiftRight_8_eq_div (x : Nat) : x >>> 8 = x / 256 := by
  have h := Nat.shiftRight_eq_div_pow x 8
  norm_num at h
  exact h

/-- C1: for byte-sized `device_id`/`function_code` and word-sized
`register`/`word_count`, `create_modbus_read_request` returns exactly the
8-byte frame `[deviceId, functionCode, register>>8, register&0xFF,
wordCount>>8, wordCount&0xFF, crcLo, crcHi]` where `(crcLo, crcHi)` is the
Modbus CRC16 (polynomial 0xA001, initial value 0xFFFF, LSB-first) of the
first 6 bytes, low byte first; in particular
`create_modbus_read_request 0xFF 3 256 34 = FF 03 01 00 00 22 D1 F1`. -/
theorem create_modbus_read_request_spec (d f r w : Nat)
    (hd : d ≤ 255) (hf : f ≤ 255) (hr : r ≤ 65535) (hw : w ≤ 65535) :
    create_modbus_read_request d f r w =
      [d, f, r / 256, r % 256, w / 256, w % 256,
       (modbus_crc [d, f, r / 256, r % 256, w / 256, w % 256]).1,
       (modbus_crc [d, f, r / 256, r % 256, w / 256, w % 256]).2] ∧
    create_modbus_read_request 0xFF 3 256 34 =
      [0xFF, 0x03, 0x01, 0x00, 0x00, 0x22,
       (modbus_crc [0xFF, 0x03, 0x01, 0x00, 0x00, 0x22]).1,
       (modbus_crc [0xFF, 0x03, 0x01, 0x00, 0x00, 0x22]).2] ∧
    modbus_crc [0xFF, 0x03, 0x01, 0x00, 0x00, 0x22] = (0xD1, 0xF1) := by
  refine ⟨?_, by decide, by decide⟩
  have h1 : r / 256 % 256 = r / 256 := Nat.mod_eq_of_lt (by omega)
  have h2 : w / 256 % 256 = w / 256 := Nat.mod_eq_of_lt (by omega)
  simp only [create_modbus_read_request, and_255_eq_mod, shiftRight_8_eq_div,
    h1, h2, List.append_eq]
  rfl

/-- Witness for C1 at the concrete input `(0xFF, 3, 256, 34)`. -/
theorem create_modbus_read_request_spec_witness :
    create_modbus_read_request 255 3 256 34 =
      [255, 3, 256 / 256, 256 % 256, 34 / 256, 34 % 256,
       (modbus_crc [255, 3, 256 / 256, 256 % 256, 34 / 256, 34 % 256]).1,
       (modbus_crc [255, 3, 256 / 256, 256 % 256, 34 / 256, 34 % 256]).2] ∧
    create_modbus_read_request 0xFF 3 256 34 =
      [0xFF, 0x03, 0x01, 0x00, 0x00, 0x22,
       (modbus_crc [0xFF, 0x03, 0x01, 0x00, 0x00, 0x22]).1,
       (modbus_crc [0xFF, 0x03, 0x01, 0x00, 0x00, 0x22]).2] ∧
    modbus_crc [0xFF, 0x03, 0x01, 0x00, 0x00, 0x22] = (0xD1, 0xF1) :=
  create_modbus_read_request_spec 255 3 256 34
    (by decide) (by decide) (by decide) (by decide)

/-! ## DeviceState: availability tracking (`RenogyBLEDevice` in ble.py)

Timestamps are modelled as `Nat` seconds, passed explicitly where the Python
reads `datetime.now()`. -/

/-- `self.max_failures = 3` from `RenogyBLEDevice.__init__`. -/
def max_failures : Nat := 3

/-- `UNAVAILABLE_RETRY_INTERVAL = 10` (minutes) from const.py / ble.py. -/
def UNAVAILABLE_RETRY_INTERVAL : Nat := 10

/-- `timedelta(minutes=UNAVAILABLE_RETRY_INTERVAL)` in seconds. -/
def retry_interval_seconds : Nat := UNAVAILABLE_RETRY_INTERVAL * 60

/-- The availability-related fields of `RenogyBLEDevice`. -/
structure DeviceAvailState where
  failure_count : Nat
  available : Bool
  last_unavailable_time : Option Nat
deriving Repr, DecidableEq

/-- Field values set by `RenogyBLEDevice.__init__`: `failure_count = 0`,
`available = True`, `last_unavailable_time = None`. -/
def initDeviceState : DeviceAvailState :=
  { failure_count := 0, available := true, last_unavailable_time := none }

/-- The `is_available` property: `self.available and self.failure_count <
self.max_failures`. -/
def is_available (s : DeviceAvailState) : Bool :=
  s.available && decide (s.failure_count < max_failures)

/-- `RenogyBLEDevice.update_availability(success)`, with `datetime.now()`
passed in as `now`. -/
def update_availability (s : DeviceAvailState) (success : Bool) (now : Nat) :
    DeviceAvailState :=
  if success then
    { failure_count := 0
      available := true
      last_unavailable_time :=
        if s.available then s.last_unavailable_time else none }
  else
    let fc := s.failure_count + 1
    if max_failures ≤ fc ∧ s.available = true then
      { failure_count := fc, available := false,
        last_unavailable_time := some now }
    else
      { failure_count := fc, available := s.available,
        last_unavailable_time := s.last_unavailable_time }

/-- `RenogyBLEDevice.should_retry_connection`, with `datetime.now()` passed in
as `now`; returns the decision together with the updated state, since the
property mutates `last_unavailable_time`. -/
def should_retry_connection (s : DeviceAvailState) (now : Nat) :
    Bool × DeviceAvailState :=
  if is_available s then (true, s)
  else
    match s.last_unavailable_time with
    | none => (false, { s with last_unavailable_time := some now })
    | some t0 =>
      if t0 + retry_interval_seconds ≤ now then
        (true, { s with last_unavailable_time := some now })
      else (false, s)

/-- A finite sequence of `update_availability` calls applied to a freshly
created device. -/
def run_updates (events : List (Bool × Nat)) : DeviceAvailState :=
  events.foldl (fun s e => update_availability s e.1 e.2) initDeviceState

/-- States reachable by `update_availability` sequences: the availability flag
tracks `failure_count < max_failures`, and `last_unavailable_time` is set
exactly while the device is unavailable. -/
def AvailInv (s : DeviceAvailState) : Prop :=
  s.available = decide (s.failure_count < max_failures) ∧
  (s.available = true → s.last_unavailable_time = none) ∧
  (s.available = false → s.last_unavailable_time ≠ none)

lemma availInv_init : AvailInv initDeviceState := by
  simp [AvailInv, initDeviceState, max_failures]

lemma availInv_step (s : DeviceAvailState) (b : Bool) (t : Nat)
    (h : AvailInv s) : AvailInv (update_availability s b t) := by
  obtain ⟨h1, h2, h3⟩ := h
  simp only [max_failures] at h1
  cases b with
  | true =>
    cases hs : s.available with
    | true =>
      refine ⟨?_, fun _ => ?_, ?_⟩
      · simp [update_availability, max_failures]
      · simp [update_availability, hs, h2 hs]
      · simp [update_availability]
    | false =>
      refine ⟨?_, fun _ => ?_, ?_⟩
      · simp [update_availability, max_failures]
      · simp [update_availability, hs]
      · simp [update_availability]
  | false =>
    cases hs : s.available with
    | true =>
      have hlt : s.failure_count < 3 := by
        rw [hs] at h1
        simpa using h1.symm
      by_cases hc : 3 ≤ s.failure_count + 1
      · have hcond : max_failures ≤ s.failure_count + 1 ∧ s.available = true :=
          ⟨by simpa [max_failures] using hc, hs⟩
        refine ⟨?_, ?_, ?_⟩
        · simp only [update_availability, Bool.false_eq_true, if_false,
            if_pos hcond]
          simp [max_failures]
          omega
        · simp [update_availability, hcond]
        · simp [update_availability, hcond]
      · have hcond : ¬ (max_failures ≤ s.failure_count + 1 ∧ s.available = true) := by
          simp only [max_failures]
          intro hand
          exact hc hand.1
        refine ⟨?_, fun _ => ?_, ?_⟩
        · simp only [update_availability, Bool.false_eq_true, if_false,
            if_neg hcond]
          simp [hs, max_failures]
          omega
        · simp [update_availability, hcond, h2 hs]
        · have hcond2 : ¬ max_failures ≤ s.failure_count + 1 := by
            simpa [max_failures] using hc
          simp [update_availability, hcond2, hs]
    | false =>
      have hge : ¬ (s.failure_count < 3) := by
        rw [hs] at h1
        simpa using h1.symm
      have hcond : ¬ (max_failures ≤ s.failure_count + 1 ∧ s.available = true) := by
        simp [hs]
      refine ⟨?_, ?_, ?_⟩
      · simp only [update_availability, Bool.false_eq_true, if_false,
          if_neg hcond]
        simp [hs, max_failures]
        omega
      · simp [update_availability, hcond, hs]
      · simp only [update_availability, Bool.false_eq_true, if_false,
          if_neg hcond]
        intro _
        exact h3 hs

lemma availInv_run (events : List (Bool × Nat)) : AvailInv (run_updates events) := by
  suffices h : ∀ s, AvailInv s →
      AvailInv (events.foldl (fun s e => update_availability s e.1 e.2) s) by
    exact h initDeviceState availInv_init
  induction events with
  | nil => intro s hs; exact hs
  | cons e rest ih =>
    intro s hs
    exact ih _ (availInv_step s e.1 e.2 hs)

/-- C2: over every finite sequence of `update_availability` calls on a fresh
device, `available` is true exactly while fewer than 3 consecutive failures
have accumulated (so it turns false exactly on the call where the count first
reaches `max_failures = 3`), a success call resets the count to 0, makes the
device available and clears `last_unavailable_time`, a failure call never
revives an unavailable device, and the transition to unavailable records the
current time in `last_unavailable_time`. -/
theorem availability_hysteresis (es : List (Bool × Nat)) (t : Nat) :
    ((run_updates es).available =
      decide ((run_updates es).failure_count < 3)) ∧
    (update_availability (run_updates es) true t).failure_count = 0 ∧
    (update_availability (run_updates es) true t).available = true ∧
    (update_availability (run_updates es) true t).last_unavailable_time
      = none ∧
    ((run_updates es).available = true →
      (update_availability (run_updates es) false t).available
        = decide ((run_updates es).failure_count + 1 < 3)) ∧
    ((run_updates es).available = false →
      (update_availability (run_updates es) false t).available = false) ∧
    ((run_updates es).available = true →
      3 ≤ (run_updates es).failure_count + 1 →
      (update_availability (run_updates es) false t).last_unavailable_time
        = some t) := by
  obtain ⟨h1, h2, h3⟩ := availInv_run es
  simp only [max_failures] at h1
  refine ⟨h1, by simp [update_availability], by simp [update_availability],
    ?_, ?_, ?_, ?_⟩
  · cases hs : (run_updates es).available with
    | true => simp [update_availability, hs, h2 hs]
    | false => simp [update_availability, hs]
  · intro hs
    by_cases hc : 3 ≤ (run_updates es).failure_count + 1
    · have hcond : max_failures ≤ (run_updates es).failure_count + 1 ∧
          (run_updates es).available = true := ⟨by simpa [max_failures] using hc, hs⟩
      simp only [update_availability, Bool.false_eq_true, if_false,
        if_pos hcond]
      simp
      omega
    · have hcond : ¬ (max_failures ≤ (run_updates es).failure_count + 1 ∧
          (run_updates es).available = true) := by
        simp only [max_failures]
        intro hand
        exact hc hand.1
      simp only [update_availability, Bool.false_eq_true, if_false,
        if_neg hcond]
      simp [hs]
      omega
  · intro hs
    have hcond : ¬ (max_failures ≤ (run_updates es).failure_count + 1 ∧
        (run_updates es).available = true) := by
      simp [hs]
    simp [update_availability, hcond, hs]
  · intro hs hc
    have hcond : max_failures ≤ (run_updates es).failure_count + 1 ∧
        (run_updates es).available = true := ⟨by simpa [max_failures] using hc, hs⟩
    simp [update_availability, hcond]

/-- Witness for C2: after two failures the device is still available; the
third failure (at time 9) flips it to unavailable and records time 9; after
three failures a success resets the count, restores availability and clears
the recorded time; a further failure on the unavailable device keeps it
unavailable. -/
theorem availability_hysteresis_witness :
    (run_updates [(false, 1), (false, 2)]).available = true ∧
    (update_availability (run_updates [(false, 1), (false, 2)])
      false 9).available = false ∧
    (update_availability (run_updates [(false, 1), (false, 2)])
      false 9).last_unavailable_time = some 9 ∧
    (run_updates [(false, 1), (false, 2), (false, 3)]).available = false ∧
    (update_availability (run_updates [(false, 1), (false, 2), (false, 3)])
      false 9).available = false ∧
    (update_availability (run_updates [(false, 1), (false, 2), (false, 3)])
      true 9).failure_count = 0 ∧
    (update_availability (run_updates [(false, 1), (false, 2), (false, 3)])
      true 9).available = true ∧
    (update_availability (run_updates [(false, 1), (false, 2), (false, 3)])
      true 9).last_unavailable_time = none := by
  have h2 := availability_hysteresis [(false, 1), (false, 2)] 9
  have h3 := availability_hysteresis [(false, 1), (false, 2), (false, 3)] 9
  refine ⟨by simpa using h2.1, ?_, ?_, by simpa using h3.1, ?_,
    h3.2.1, h3.2.2.1, h3.2.2.2.1⟩
  · have := h2.2.2.2.2.1 (by simpa using h2.1)
    simpa using this
  · exact h2.2.2.2.2.2.2 (by simpa using h2.1) (by decide)
  · exact h3.2.2.2.2.2.1 (by simpa using h3.1)

/-- C3: `should_retry_connection` returns true and leaves the state unchanged
when the device is available; on an unavailable device with no recorded
unavailable time it returns false and records the current time; before the
10-minute retry interval has elapsed it returns false and changes nothing; at
or after the interval it returns true and resets the recorded time to now. -/
theorem should_retry_connection_spec (s : DeviceAvailState) (now : Nat) :
    (is_available s = true → should_retry_connection s now = (true, s)) ∧
    (is_available s = false → s.last_unavailable_time = none →
      should_retry_connection s now =
        (false, { s with last_unavailable_time := some now })) ∧
    (∀ t0, is_available s = false → s.last_unavailable_time = some t0 →
      now < t0 + retry_interval_seconds →
      should_retry_connection s now = (false, s)) ∧
    (∀ t0, is_available s = false → s.last_unavailable_time = some t0 →
      t0 + retry_interval_seconds ≤ now →
      should_retry_connection s now =
        (true, { s with last_unavailable_time := some now })) := by
  refine ⟨?_, ?_, ?_, ?_⟩
  · intro hav
    simp [should_retry_connection, hav]
  · intro hav hnone
    simp [should_retry_connection, hav, hnone]
  · intro t0 hav hsome hlt
    simp only [should_retry_connection, hav, Bool.false_eq_true, if_false,
      hsome]
    have hcond : ¬ t0 + retry_interval_seconds ≤ now := by
      simp only [retry_interval_seconds, UNAVAILABLE_RETRY_INTERVAL] at hlt ⊢
      omega
    rw [if_neg hcond]
  · intro t0 hav hsome hge
    simp only [should_retry_connection, hav, Bool.false_eq_true, if_false,
      hsome]
    rw [if_pos hge]

/-- Witness for C3 on the concrete unavailable state
(3 failures, unavailable, last unavailable at time 100), probed at times 100,
699 and 700 (just before and exactly at the 600-second interval). -/
theorem should_retry_connection_spec_witness :
    should_retry_connection ⟨3, false, none⟩ 100 =
      (false, ⟨3, false, some 100⟩) ∧
    should_retry_connection ⟨3, false, some 100⟩ 699 =
      (false, ⟨3, false, some 100⟩) ∧
    should_retry_connection ⟨3, false, some 100⟩ 700 =
      (true, ⟨3, false, some 700⟩) :=
  ⟨(should_retry_connection_spec ⟨3, false, none⟩ 100).2.1 (by decide) rfl,
   (should_retry_connection_spec ⟨3, false, some 100⟩ 699).2.2.1 100
     (by decide) rfl (by decide),
   (should_retry_connection_spec ⟨3, false, some 100⟩ 700).2.2.2 100
     (by decide) rfl (by decide)⟩

/-! ## ResponseValidator / Parser: `RenogyBLEDevice.update_parsed_data`

`self.parsed_data` is a Python dict, embedded as an association list with
Python-dict assignment semantics (`alist_insert` updates the first binding in
place, or appends a fresh key).  The external decoder `RenogyParser.parse` is
an arbitrary function parameter; `Except.error` models a raised exception and
an empty returned list models a Python-falsy (`None`/empty) result. -/

/-- Python dict assignment `m[k] = v`: replace the binding in place if the key
exists, else append. -/
def alist_insert {α : Type} : List (String × α) → String → α → List (String × α)
  | [], k, v => [(k, v)]
  | p :: rest, k, v =>
    if p.1 = k then (k, v) :: rest else p :: alist_insert rest k v

/-- Python `dict.update(u)`: assign every binding of `u` into `m` in order. -/
def dict_update {α : Type} (m u : List (String × α)) : List (String × α) :=
  u.foldl (fun acc p => alist_insert acc p.1 p.2) m

/-- Python `m.get(k)` / `k in m` combined: the value bound to `k`, if any. -/
def alist_lookup {α : Type} (m : List (String × α)) (k : String) : Option α :=
  (m.find? (fun p => p.1 = k)).map (fun p => p.2)

/-- Outcome of the external decoder `RenogyParser.parse(raw, device_type,
register)`: an exception, or a field mapping (possibly empty, i.e. falsy). -/
abbrev Decoder (α : Type) := List Nat → String → Nat → Except Unit (List (String × α))

/-- Result of one `update_parsed_data` call: the returned boolean, the device's
`parsed_data` dict after the call, and whether `RenogyParser.parse` was
invoked (instrumentation for the claim that invalid inputs never reach the
decoder). -/
structure ParseOutcome (α : Type) where
  result : Bool
  parsed_data : List (String × α)
  decoder_invoked : Bool
deriving Repr, DecidableEq

/-- `RenogyBLEDevice.update_parsed_data(raw_data, register, cmd_name)` from
ble.py.  `parser_available` is the module-level `PARSER_AVAILABLE` /
`RenogyParser` import-success flag, `parse` the external decoder,
`device_type` the device's model tag, and `parsed_data` the dict accumulated
so far.  The guards appear in source order: empty input, parser missing,
response shorter than 5 bytes, Modbus exception bit (`raw_data[1] & 0x80`,
where `raw_data[1]` defaults to 0 if absent); a decoder exception or falsy
decoder result also returns `False`. -/
def update_parsed_data {α : Type} (parser_available : Bool) (parse : Decoder α)
    (device_type : String) (parsed_data : List (String × α))
    (raw_data : List Nat) (register : Nat) : ParseOutcome α :=
  if raw_data.isEmpty then
    { result := false, parsed_data := parsed_data, decoder_invoked := false }
  else if parser_available = false then
    { result := false, parsed_data := parsed_data, decoder_invoked := false }
  else if raw_data.length < 5 then
    { result := false, parsed_data := parsed_data, decoder_invoked := false }
  else if (raw_data.getD 1 0) &&& 0x80 ≠ 0 then
    { result := false, parsed_data := parsed_data, decoder_invoked := false }
  else
    match parse raw_data device_type register with
    | Except.error _ =>
      { result := false, parsed_data := parsed_data, decoder_invoked := true }
    | Except.ok parsed =>
      if parsed.isEmpty then
        { result := false, parsed_data := parsed_data, decoder_invoked := true }
      else
        { result := true, parsed_data := dict_update parsed_data parsed,
          decoder_invoked := true }

/-- C4: `update_parsed_data` returns failure without invoking the external
decoder on empty input, on input shorter than 5 bytes, and on input whose
second byte has bit 0x80 set; conversely the decoder is invoked only on
inputs passing all of these checks. -/
theorem update_parsed_data_guards {α : Type} (parser_available : Bool)
    (parse : Decoder α) (device_type : String)
    (parsed_data : List (String × α)) (raw_data : List Nat) (register : Nat) :
    (raw_data = [] →
      update_parsed_data parser_available parse device_type parsed_data
        raw_data register =
        { result := false, parsed_data := parsed_data,
          decoder_invoked := false }) ∧
    (raw_data.length < 5 →
      update_parsed_data parser_available parse device_type parsed_data
        raw_data register =
        { result := false, parsed_data := parsed_data,
          decoder_invoked := false }) ∧
    ((raw_data.getD 1 0) &&& 0x80 ≠ 0 →
      update_parsed_data parser_available parse device_type parsed_data
        raw_data register =
        { result := false, parsed_data := parsed_data,
          decoder_invoked := false }) ∧
    ((update_parsed_data parser_available parse device_type parsed_data
        raw_data register).decoder_invoked = true →
      raw_data ≠ [] ∧ 5 ≤ raw_data.length ∧
        (raw_data.getD 1 0) &&& 0x80 = 0) := by
  refine ⟨?_, ?_, ?_, ?_⟩
  · intro h
    simp [update_parsed_data, h]
  · intro h
    cases he : raw_data.isEmpty with
    | true => simp [update_parsed_data, he]
    | false =>
      cases parser_available with
      | false => simp [update_parsed_data, he]
      | true => simp [update_parsed_data, he, h]
  · intro h
    have h2 : raw_data[1]?.getD 0 &&& 0x80 ≠ 0 := by
      simpa [List.getD] using h
    cases he : raw_data.isEmpty with
    | true => simp [update_parsed_data, he]
    | false =>
      cases parser_available with
      | false => simp [update_parsed_data, he]
      | true =>
        by_cases hl : raw_data.length < 5
        · simp [update_parsed_data, he, hl]
        · simp [update_parsed_data, he, hl, h2]
  · intro h
    refine ⟨?_, ?_, ?_⟩
    · intro he
      subst he
      simp [update_parsed_data] at h
    · by_contra hl
      push_neg at hl
      cases he : raw_data.isEmpty with
      | true => simp [update_parsed_data, he] at h
      | false =>
        cases parser_available with
        | false => simp [update_parsed_data, he] at h
        | true => simp [update_parsed_data, he, hl] at h
    · by_contra hbit
      have hbit2 : raw_data[1]?.getD 0 &&& 0x80 ≠ 0 := by
        simpa [List.getD] using hbit
      cases he : raw_data.isEmpty with
      | true => simp [update_parsed_data, he] at h
      | false =>
        cases parser_available with
        | false => simp [update_parsed_data, he] at h
        | true =>
          by_cases hl : raw_data.length < 5
          · simp [update_parsed_data, he, hl] at h
          · simp [update_parsed_data, he, hl, hbit2] at h

/-- Witness for C4: the empty response, a 1-byte response, and a Modbus
exception response `[0xFF, 0x83, 2, 0, 0]` all fail without reaching the
decoder, under a decoder that would accept anything. -/
theorem update_parsed_data_guards_witness :
    update_parsed_data true
      (fun _ _ _ => Except.ok [("battery_voltage", (126 : Nat))]) "rover"
      [] [] 256 =
      { result := false, parsed_data := [], decoder_invoked := false } ∧
    update_parsed_data true
      (fun _ _ _ => Except.ok [("battery_voltage", (126 : Nat))]) "rover"
      [] [0xFF] 256 =
      { result := false, parsed_data := [], decoder_invoked := false } ∧
    update_parsed_data true
      (fun _ _ _ => Except.ok [("battery_voltage", (126 : Nat))]) "rover"
      [] [0xFF, 0x83, 2, 0, 0] 256 =
      { result := false, parsed_data := [], decoder_invoked := false } :=
  ⟨(update_parsed_data_guards true
      (fun _ _ _ => Except.ok [("battery_voltage", (126 : Nat))]) "rover"
      [] [] 256).1 rfl,
   (update_parsed_data_guards true
      (fun _ _ _ => Except.ok [("battery_voltage", (126 : Nat))]) "rover"
      [] [0xFF] 256).2.1 (by decide),
   (update_parsed_data_guards true
      (fun _ _ _ => Except.ok [("battery_voltage", (126 : Nat))]) "rover"
      [] [0xFF, 0x83, 2, 0, 0] 256).2.2.1 (by decide)⟩

/-- C10: `update_parsed_data` is atomic with respect to the accumulated
telemetry: whenever it returns `False` (empty/short input, exception bit,
parser unavailable, decoder raising or returning nothing), `parsed_data` is
left exactly as it was; it is mutated only on calls returning `True`. -/
theorem update_parsed_data_atomic {α : Type} (parser_available : Bool)
    (parse : Decoder α) (device_type : String)
    (parsed_data : List (String × α)) (raw_data : List Nat) (register : Nat) :
    (update_parsed_data parser_available parse device_type parsed_data
      raw_data register).result = false →
    (update_parsed_data parser_available parse device_type parsed_data
      raw_data register).parsed_data = parsed_data := by
  intro hres
  unfold update_parsed_data at hres ⊢
  repeat' split at hres
  all_goals first
    | rfl
    | (split <;> rfl)
    | simp_all

/-- Witness for C10 on a decoder that raises, applied to a well-formed
response with pre-existing telemetry. -/
theorem update_parsed_data_atomic_witness :
    (update_parsed_data true
      (fun _ _ _ => (Except.error () : Except Unit (List (String × Nat))))
      "rover" [("pv_power", 55)] [0xFF, 3, 2, 0, 0, 0, 0] 256).result
        = false ∧
    (update_parsed_data true
      (fun _ _ _ => (Except.error () : Except Unit (List (String × Nat))))
      "rover" [("pv_power", 55)] [0xFF, 3, 2, 0, 0, 0, 0] 256).parsed_data
        = [("pv_power", 55)] :=
  ⟨by decide,
   update_parsed_data_atomic true _ "rover" [("pv_power", 55)]
     [0xFF, 3, 2, 0, 0, 0, 0] 256 (by decide)⟩

/-! ## ConnectionSession: the command loop of `read_device_data`

One poll session (`RenogyBLEClient.read_device_data` /
`RenogyActiveBluetoothCoordinator._read_device_data`) iterates over the
ordered command table; for each command the notification wait either times
out (the command is skipped with `continue`) or yields the accumulated
notification bytes, which are handed to `update_parsed_data`; the session
reports success when at least one command parsed.  A command is modelled as
`(cmd_name, register, outcome)` with `none` for a timeout.  Transport-level
exceptions, which abort the whole session, are outside this model. -/

/-- One iteration of the `for cmd_name, cmd in commands.items()` loop: the
accumulator carries `any_command_succeeded` and the device's `parsed_data`. -/
def session_step {α : Type} (parser_available : Bool) (parse : Decoder α)
    (device_type : String) (acc : Bool × List (String × α))
    (c : String × Nat × Option (List Nat)) : Bool × List (String × α) :=
  match c.2.2 with
  | none => acc
  | some raw =>
    let r := update_parsed_data parser_available parse device_type acc.2 raw
      c.2.1
    (acc.1 || r.result, r.parsed_data)

/-- The command loop of `read_device_data`: fold `session_step` over the
command table, starting from `any_command_succeeded = False` and the device's
current `parsed_data`; returns the session-level success flag and the final
`parsed_data`. -/
def read_device_data {α : Type} (parser_available : Bool) (parse : Decoder α)
    (device_type : String) (cmds : List (String × Nat × Option (List Nat)))
    (parsed_data : List (String × α)) : Bool × List (String × α) :=
  cmds.foldl (session_step parser_available parse device_type)
    (false, parsed_data)

/-- Whether a single command's response parses successfully (its parse result
does not depend on the accumulated dict, so it is evaluated from `[]`). -/
def cmd_success {α : Type} (parser_available : Bool) (parse : Decoder α)
    (device_type : String) (c : String × Nat × Option (List Nat)) : Bool :=
  match c.2.2 with
  | none => false
  | some raw =>
    (update_parsed_data parser_available parse device_type [] raw c.2.1).result

/-- The telemetry fields a single command contributes (empty on timeout or
parse failure). -/
def cmd_fields {α : Type} (parser_available : Bool) (parse : Decoder α)
    (device_type : String) (c : String × Nat × Option (List Nat)) :
    List (String × α) :=
  match c.2.2 with
  | none => []
  | some raw =>
    (update_parsed_data parser_available parse device_type [] raw
      c.2.1).parsed_data

/-- The last binding of a key in an assignment list (later assignments win). -/
def upd_lookup {α : Type} : List (String × α) → String → Option α
  | [], _ => none
  | p :: rest, k =>
    match upd_lookup rest k with
    | some v => some v
    | none => if p.1 = k then some p.2 else none

lemma alist_lookup_nil {α : Type} (k : String) :
    alist_lookup ([] : List (String × α)) k = none := rfl

lemma alist_lookup_cons {α : Type} (p : String × α) (m : List (String × α))
    (k : String) :
    alist_lookup (p :: m) k =
      if p.1 = k then some p.2 else alist_lookup m k := by
  by_cases h : p.1 = k <;> simp [alist_lookup, List.find?, h]

lemma alist_lookup_insert {α : Type} (m : List (String × α)) (k k2 : String)
    (v : α) :
    alist_lookup (alist_insert m k v) k2 =
      if k = k2 then some v else alist_lookup m k2 := by
  induction m with
  | nil =>
    by_cases h : k = k2 <;> simp [alist_insert, alist_lookup_cons, h]
  | cons p rest ih =>
    by_cases hp : p.1 = k
    · by_cases h : k = k2
      · simp [alist_insert, hp, alist_lookup_cons, h]
      · simp [alist_insert, hp, alist_lookup_cons, h, hp ▸ h]
    · by_cases h : k = k2
      · subst h
        simp [alist_insert, hp, alist_lookup_cons, ih]
      · simp [alist_insert, hp, alist_lookup_cons, ih, h]

lemma dict_update_lookup {α : Type} (u m : List (String × α)) (k : String) :
    alist_lookup (dict_update m u) k =
      match upd_lookup u k with
      | some v => some v
      | none => alist_lookup m k := by
  induction u generalizing m with
  | nil => simp [dict_update, upd_lookup]
  | cons p rest ih =>
    have hstep : dict_update m (p :: rest) = dict_update (alist_insert m p.1 p.2) rest := rfl
    rw [hstep, ih]
    cases hr : upd_lookup rest k with
    | some v => simp [upd_lookup, hr]
    | none =>
      by_cases hp : p.1 = k <;>
        simp [upd_lookup, hr, alist_lookup_insert, hp]

/-- `update_parsed_data` takes the same branch for every accumulated dict:
either it fails and leaves the dict untouched, or the decoder returned a
non-empty mapping and the call merges it into the dict and succeeds. -/
lemma update_parsed_data_cases {α : Type} (parser_available : Bool)
    (parse : Decoder α) (device_type : String) (raw_data : List Nat)
    (register : Nat) :
    (∀ pd : List (String × α),
      (update_parsed_data parser_available parse device_type pd raw_data
        register).result = false ∧
      (update_parsed_data parser_available parse device_type pd raw_data
        register).parsed_data = pd) ∨
    (∃ parsed, parse raw_data device_type register = Except.ok parsed ∧
      parsed.isEmpty = false ∧
      ∀ pd : List (String × α),
        (update_parsed_data parser_available parse device_type pd raw_data
          register).result = true ∧
        (update_parsed_data parser_available parse device_type pd raw_data
          register).parsed_data = dict_update pd parsed) := by
  cases he : raw_data.isEmpty with
  | true =>
    left
    intro pd
    constructor <;> simp [update_parsed_data, he]
  | false =>
    cases parser_available with
    | false =>
      left
      intro pd
      constructor <;> simp [update_parsed_data, he]
    | true =>
      by_cases hl : raw_data.length < 5
      · left
        intro pd
        constructor <;> simp [update_parsed_data, he, hl]
      · by_cases hbit : raw_data[1]?.getD 0 &&& 0x80 ≠ 0
        · left
          intro pd
          constructor <;> simp [update_parsed_data, he, hl, hbit]
        · cases hp : parse raw_data device_type register with
          | error e =>
            left
            intro pd
            constructor <;> simp [update_parsed_data, he, hl, hbit, hp]
          | ok parsed =>
            cases hpe : parsed.isEmpty with
            | true =>
              left
              intro pd
              constructor <;>
                simp [update_parsed_data, he, hl, hbit, hp, hpe]
            | false =>
              right
              refine ⟨parsed, rfl, hpe, fun pd => ?_⟩
              constructor <;>
                simp [update_parsed_data, he, hl, hbit, hp, hpe]

/-- The boolean returned by `update_parsed_data` does not depend on the
accumulated dict. -/
lemma update_parsed_data_result_congr {α : Type} (parser_available : Bool)
    (parse : Decoder α) (device_type : String)
    (pd pd2 : List (String × α)) (raw_data : List Nat) (register : Nat) :
    (update_parsed_data parser_available parse device_type pd raw_data
      register).result =
    (update_parsed_data parser_available parse device_type pd2 raw_data
      register).result := by
  rcases update_parsed_data_cases parser_available parse device_type raw_data
      register (α := α) with h | ⟨parsed, _, _, h⟩
  · rw [(h pd).1, (h pd2).1]
  · rw [(h pd).1, (h pd2).1]

/-- Lookup in the dict after one `update_parsed_data` call: the command's own
fields (computed from an empty dict) win, everything else falls back to the
incoming dict. -/
lemma update_parsed_data_lookup {α : Type} (parser_available : Bool)
    (parse : Decoder α) (device_type : String) (pd : List (String × α))
    (raw_data : List Nat) (register : Nat) (k : String) :
    alist_lookup (update_parsed_data parser_available parse device_type pd
        raw_data register).parsed_data k =
      match alist_lookup (update_parsed_data parser_available parse
          device_type [] raw_data register).parsed_data k with
      | some v => some v
      | none => alist_lookup pd k := by
  rcases update_parsed_data_cases parser_available parse device_type raw_data
      register (α := α) with h | ⟨parsed, _, _, h⟩
  · rw [(h pd).2, (h []).2]
    simp [alist_lookup]
  · rw [(h pd).2, (h []).2, dict_update_lookup, dict_update_lookup]
    cases upd_lookup parsed k <;> simp [alist_lookup]

/-- The fields a session's commands contribute to a key, later commands
winning (a session folds the command table left to right). -/
def session_lookup {α : Type} (parser_available : Bool) (parse : Decoder α)
    (device_type : String) :
    List (String × Nat × Option (List Nat)) → String → Option α
  | [], _ => none
  | c :: rest, k =>
    match session_lookup parser_available parse device_type rest k with
    | some v => some v
    | none =>
      alist_lookup (cmd_fields parser_available parse device_type c) k

lemma session_fold_success {α : Type} (parser_available : Bool)
    (parse : Decoder α) (device_type : String)
    (cmds : List (String × Nat × Option (List Nat))) :
    ∀ (b : Bool) (pd : List (String × α)),
    (cmds.foldl (session_step parser_available parse device_type) (b, pd)).1
      = (b || cmds.any (cmd_success parser_available parse device_type)) := by
  induction cmds with
  | nil => simp
  | cons c rest ih =>
    intro b pd
    cases hc : c.2.2 with
    | none =>
      simp only [List.foldl_cons, session_step, hc, ih, List.any_cons,
        cmd_success]
      simp [cmd_success, hc]
    | some raw =>
      simp only [List.foldl_cons, session_step, hc, ih]
      rw [update_parsed_data_result_congr parser_available parse device_type
        pd [] raw c.2.1]
      simp [cmd_success, hc, Bool.or_assoc]

lemma session_fold_lookup {α : Type} (parser_available : Bool)
    (parse : Decoder α) (device_type : String)
    (cmds : List (String × Nat × Option (List Nat))) :
    ∀ (b : Bool) (pd : List (String × α)) (k : String),
    alist_lookup
        (cmds.foldl (session_step parser_available parse device_type)
          (b, pd)).2 k =
      match session_lookup parser_available parse device_type cmds k with
      | some v => some v
      | none => alist_lookup pd k := by
  induction cmds with
  | nil => simp [session_lookup]
  | cons c rest ih =>
    intro b pd k
    cases hc : c.2.2 with
    | none =>
      simp only [List.foldl_cons, session_step, hc, ih, session_lookup,
        cmd_fields]
      cases session_lookup parser_available parse device_type rest k <;>
        simp [alist_lookup]
    | some raw =>
      simp only [List.foldl_cons, session_step, hc, ih]
      rw [update_parsed_data_lookup]
      simp only [session_lookup, cmd_fields, hc]
      cases session_lookup parser_available parse device_type rest k <;>
        simp

lemma session_lookup_eq_none {α : Type} (parser_available : Bool)
    (parse : Decoder α) (device_type : String)
    (cmds : List (String × Nat × Option (List Nat))) (k : String)
    (h : ∀ c ∈ cmds,
      alist_lookup (cmd_fields parser_available parse device_type c) k
        = none) :
    session_lookup parser_available parse device_type cmds k = none := by
  induction cmds with
  | nil => rfl
  | cons c rest ih =>
    have hrest := ih (fun c2 hc2 => h c2 (List.mem_cons_of_mem c hc2))
    simp only [session_lookup, hrest]
    exact h c (List.mem_cons_self c rest)

lemma session_lookup_ne_none {α : Type} (parser_available : Bool)
    (parse : Decoder α) (device_type : String)
    (cmds : List (String × Nat × Option (List Nat)))
    (c : String × Nat × Option (List Nat)) (k : String) (hc : c ∈ cmds)
    (h : alist_lookup (cmd_fields parser_available parse device_type c) k
      ≠ none) :
    session_lookup parser_available parse device_type cmds k ≠ none := by
  induction cmds with
  | nil => cases hc
  | cons c2 rest ih =>
    cases hs : session_lookup parser_available parse device_type rest k with
    | some v => simp [session_lookup, hs]
    | none =>
      rcases List.mem_cons.mp hc with rfl | hmem
      · simpa [session_lookup, hs] using h
      · exact absurd hs (ih hmem)

/-- C5: session-level success is true iff at least one command in the ordered
table parsed successfully (timeouts and parse failures are skipped, not
session-fatal), and the final `parsed_data` merges the successful commands'
fields into the pre-existing ones: keys untouched by every command keep their
previous value, and keys contributed by some command are present. -/
theorem read_device_data_session_spec {α : Type} (parser_available : Bool)
    (parse : Decoder α) (device_type : String)
    (cmds : List (String × Nat × Option (List Nat)))
    (pd0 : List (String × α)) :
    ((read_device_data parser_available parse device_type cmds pd0).1 = true
      ↔ ∃ c ∈ cmds, cmd_success parser_available parse device_type c
          = true) ∧
    (∀ k v, alist_lookup pd0 k = some v →
      (∀ c ∈ cmds,
        alist_lookup (cmd_fields parser_available parse device_type c) k
          = none) →
      alist_lookup
        (read_device_data parser_available parse device_type cmds pd0).2 k
        = some v) ∧
    (∀ k c, c ∈ cmds →
      alist_lookup (cmd_fields parser_available parse device_type c) k
        ≠ none →
      alist_lookup
        (read_device_data parser_available parse device_type cmds pd0).2 k
        ≠ none) := by
  refine ⟨?_, ?_, ?_⟩
  · rw [read_device_data, session_fold_success]
    simp [List.any_eq_true]
  · intro k v hv hall
    rw [read_device_data, session_fold_lookup,
      session_lookup_eq_none parser_available parse device_type cmds k hall]
    exact hv
  · intro k c hc hne
    rw [read_device_data, session_fold_lookup]
    cases hs : session_lookup parser_available parse device_type cmds k with
    | some v => simp
    | none =>
      exact absurd hs
        (session_lookup_ne_none parser_available parse device_type cmds c k
          hc hne)

/-- A concrete decoder for the C5 witness: only register 256 (`pv`) parses,
to one field. -/
def pvDecoder : Decoder Nat := fun _ _ register =>
  if register = 256 then Except.ok [("pv_power", 7)] else Except.error ()

/-- A concrete two-command table for the C5 witness: `device_info` times out,
`pv` answers with a well-formed 7-byte response. -/
def witnessCmds : List (String × Nat × Option (List Nat)) :=
  [("device_info", 12, none), ("pv", 256, some [255, 3, 2, 0, 7, 1, 2])]

/-- Witness for C5: with one command timing out and one parsing, the session
succeeds, the pre-existing `battery_voltage` field survives, and the new
`pv_power` field is present. -/
theorem read_device_data_session_spec_witness :
    (read_device_data true pvDecoder "controller" witnessCmds
      [("battery_voltage", 126)]).1 = true ∧
    alist_lookup (read_device_data true pvDecoder "controller" witnessCmds
      [("battery_voltage", 126)]).2 "battery_voltage" = some 126 ∧
    alist_lookup (read_device_data true pvDecoder "controller" witnessCmds
      [("battery_voltage", 126)]).2 "pv_power" ≠ none := by
  have h := read_device_data_session_spec true pvDecoder "controller"
    witnessCmds [("battery_voltage", 126)]
  refine ⟨h.1.mpr ⟨("pv", 256, some [255, 3, 2, 0, 7, 1, 2]),
      by simp [witnessCmds], by decide⟩,
    h.2.1 "battery_voltage" 126 rfl (by decide),
    h.2.2 "pv_power" ("pv", 256, some [255, 3, 2, 0, 7, 1, 2])
      (by simp [witnessCmds]) (by decide)⟩

/-! ## PollScheduler: single-flight polling and the needs-poll decision

`RenogyActiveBluetoothCoordinator._async_poll` checks
`self._connection_in_progress` and returns immediately when a session is in
progress; `_read_device_data` sets the flag on entry (under the connection
lock) and clears it in its `finally` block.  In the single-threaded asyncio
event loop the guard check, the lock acquisition on an uncontended lock and
the flag assignment run without an intervening suspension point, so a poll
trigger is an atomic step that either starts a session (opening one transport
connection) or is a no-op.  The lifecycle is modelled as a transition system
whose events are poll triggers and session completions. -/

/-- Scheduler-visible state: the `_connection_in_progress` flag, the number of
sessions currently between transport connect and disconnect, and a counter of
transport connect attempts (instrumentation). -/
structure PollState where
  connection_in_progress : Bool
  active_sessions : Nat
  transport_connects : Nat
deriving Repr, DecidableEq

/-- Coordinator state after `__init__`: no session, no connects. -/
def initPollState : PollState :=
  { connection_in_progress := false, active_sessions := 0,
    transport_connects := 0 }

/-- Events: a poll trigger (interval refresh, manual refresh or discovery
callback entering `_async_poll`), or an in-flight session finishing
(`_read_device_data`'s `finally` clearing the flag). -/
inductive PollEvent where
  | trigger
  | finish
deriving Repr, DecidableEq

/-- One event step.  `trigger` mirrors `_async_poll`: if
`_connection_in_progress` is set, return without connecting; otherwise enter
`_read_device_data`, which sets the flag and opens one transport connection.
`finish` mirrors the end of `_read_device_data`: the `finally` block clears
the flag as the session ends. -/
def poll_step (s : PollState) : PollEvent → PollState
  | PollEvent.trigger =>
    if s.connection_in_progress then s
    else
      { connection_in_progress := true,
        active_sessions := s.active_sessions + 1,
        transport_connects := s.transport_connects + 1 }
  | PollEvent.finish =>
    if s.active_sessions = 0 then s
    else
      { connection_in_progress := false,
        active_sessions := s.active_sessions - 1,
        transport_connects := s.transport_connects }

/-- Run the coordinator from `__init__` through a list of events. -/
def poll_run (events : List PollEvent) : PollState :=
  events.foldl poll_step initPollState

lemma poll_run_inv (events : List PollEvent) :
    (poll_run events).active_sessions ≤ 1 ∧
    (poll_run events).connection_in_progress
      = decide ((poll_run events).active_sessions = 1) := by
  suffices h : ∀ s : PollState, s.active_sessions ≤ 1 →
      s.connection_in_progress = decide (s.active_sessions = 1) →
      (events.foldl poll_step s).active_sessions ≤ 1 ∧
      (events.foldl poll_step s).connection_in_progress
        = decide ((events.foldl poll_step s).active_sessions = 1) by
    exact h initPollState (by simp [initPollState]) (by simp [initPollState])
  induction events with
  | nil => intro s h1 h2; exact ⟨h1, h2⟩
  | cons e rest ih =>
    intro s h1 h2
    refine ih (poll_step s e) ?_ ?_
    · cases e with
      | trigger =>
        cases hc : s.connection_in_progress with
        | true => simp [poll_step, hc, h1]
        | false =>
          rw [hc] at h2
          have : s.active_sessions = 0 := by
            by_contra hn
            have : s.active_sessions = 1 := by omega
            simp [this] at h2
          simp [poll_step, hc, this]
      | finish =>
        cases hz : s.active_sessions with
        | zero => simp [poll_step, hz]
        | succ n => simp [poll_step, hz]; omega
    · cases e with
      | trigger =>
        cases hc : s.connection_in_progress with
        | true => simp [poll_step, hc, h2, hc ▸ h2]
        | false =>
          rw [hc] at h2
          have : s.active_sessions = 0 := by
            by_contra hn
            have : s.active_sessions = 1 := by omega
            simp [this] at h2
          simp [poll_step, hc, this]
      | finish =>
        cases hz : s.active_sessions with
        | zero =>
          rw [hz] at h2
          simp [poll_step, hz, h2]
        | succ n =>
          have : n = 0 := by
            rw [hz] at h1
            omega
          simp [poll_step, hz, this]

/-- Session-counting state for the `renogy_ha` `RenogyBLEClient` core.
`RenogyBLEClient.read_device_data` has no connection lock and no in-progress
flag: every entry (from the polling loop's `_process_device`, or from the
discovery callback's `asyncio.create_task(self._process_device(...))` at
ble.py:452, which runs concurrently with the polling loop) constructs its own
`BleakClient` and calls `connect()`.  Sessions end at the `finally`
disconnect. -/
structure ClientPollState where
  active_sessions : Nat
  transport_connects : Nat
deriving Repr, DecidableEq

/-- `RenogyBLEClient` state before any poll: no session, no connects. -/
def initClientPollState : ClientPollState :=
  { active_sessions := 0, transport_connects := 0 }

/-- One event step for the `RenogyBLEClient` core, for an available device:
`trigger` models entering `read_device_data`, which unconditionally opens a
transport connection — there is no guard against a session already being in
flight; `finish` models a session reaching its `finally` disconnect. -/
def client_poll_step (s : ClientPollState) : PollEvent → ClientPollState
  | PollEvent.trigger =>
    { active_sessions := s.active_sessions + 1,
      transport_connects := s.transport_connects + 1 }
  | PollEvent.finish =>
    if s.active_sessions = 0 then s
    else
      { active_sessions := s.active_sessions - 1,
        transport_connects := s.transport_connects }

/-- Run the `RenogyBLEClient` core through a list of events. -/
def client_poll_run (events : List PollEvent) : ClientPollState :=
  events.foldl client_poll_step initClientPollState

/-- Counterexample to C6 as stated: in the `RenogyBLEClient` core, after one
trigger a session is in progress, yet a second trigger is not a no-op — it
starts a second concurrent session and opens a second transport
connection. -/
theorem client_no_single_flight :
    (client_poll_run [PollEvent.trigger]).active_sessions = 1 ∧
    client_poll_step (client_poll_run [PollEvent.trigger]) PollEvent.trigger
      ≠ client_poll_run [PollEvent.trigger] ∧
    (client_poll_run [PollEvent.trigger,
      PollEvent.trigger]).transport_connects = 2 ∧
    (client_poll_run [PollEvent.trigger,
      PollEvent.trigger]).active_sessions = 2 := by
  refine ⟨rfl, ?_, rfl, rfl⟩
  decide

/-- C6 (amended): in the `RenogyActiveBluetoothCoordinator` core, at most one
poll session per device is in progress at any reachable instant, and a poll
trigger that fires while a session is in progress is a no-op — the state, in
particular the count of transport connect attempts, is unchanged; the
`RenogyBLEClient` core has no such guard: there a poll trigger always starts
a further session and opens a further transport connection, even while a
session is already in flight. -/
theorem single_flight (events : List PollEvent) (s : PollState)
    (cs : ClientPollState) :
    (poll_run events).active_sessions ≤ 1 ∧
    (s.connection_in_progress = true →
      poll_step s PollEvent.trigger = s ∧
      (poll_step s PollEvent.trigger).transport_connects
        = s.transport_connects) ∧
    (client_poll_step cs PollEvent.trigger).active_sessions
      = cs.active_sessions + 1 ∧
    (client_poll_step cs PollEvent.trigger).transport_connects
      = cs.transport_connects + 1 := by
  refine ⟨(poll_run_inv events).1, fun hc => ?_, rfl, rfl⟩
  constructor <;> simp [poll_step, hc]

/-- Witness for C6 (amended): in the coordinator core, after a trigger
(session started) a second trigger changes nothing and opens no second
transport connection; in the client core the same second trigger adds a
session and a connection. -/
theorem single_flight_witness :
    (poll_run [PollEvent.trigger, PollEvent.trigger]).active_sessions ≤ 1 ∧
    poll_step (poll_run [PollEvent.trigger]) PollEvent.trigger
      = poll_run [PollEvent.trigger] ∧
    (poll_step (poll_run [PollEvent.trigger])
      PollEvent.trigger).transport_connects
      = (poll_run [PollEvent.trigger]).transport_connects ∧
    (client_poll_step (client_poll_run [PollEvent.trigger])
      PollEvent.trigger).active_sessions
      = (client_poll_run [PollEvent.trigger]).active_sessions + 1 ∧
    (client_poll_step (client_poll_run [PollEvent.trigger])
      PollEvent.trigger).transport_connects
      = (client_poll_run [PollEvent.trigger]).transport_connects + 1 := by
  have h := single_flight [PollEvent.trigger, PollEvent.trigger]
    (poll_run [PollEvent.trigger]) (client_poll_run [PollEvent.trigger])
  have h2 := h.2.1 (by decide)
  exact ⟨h.1, h2.1, h2.2, h.2.2.1, h.2.2.2⟩

/-- `RenogyActiveBluetoothCoordinator._needs_poll(service_info, last_poll)`.
`hass_running` is `hass.state == CoreState.running`, `connectable` whether
`bluetooth.async_ble_device_from_address` returned a device,
`connection_in_progress` the `_connection_in_progress` flag; `last_poll` and
`now` are POSIX timestamps (seconds, as integers) and `scan_interval` the
configured interval in seconds. -/
def needs_poll (hass_running connectable connection_in_progress : Bool)
    (last_poll : Option Int) (now scan_interval : Int) : Bool :=
  if hass_running = false then false
  else if connectable = false then false
  else if connection_in_progress then false
  else
    match last_poll with
    | none => true
    | some lp => decide (scan_interval ≤ now - lp)

/-- C7: `_needs_poll` is false when the runtime is not running, no connectable
transport handle exists, or a connection is in progress; otherwise it is true
on a never-polled device, and else true exactly when the elapsed time since
the last poll is at least `scan_interval`. -/
theorem needs_poll_spec (hass_running connectable connection_in_progress :
      Bool) (last_poll : Option Int) (now scan_interval : Int) :
    (hass_running = false →
      needs_poll hass_running connectable connection_in_progress last_poll
        now scan_interval = false) ∧
    (connectable = false →
      needs_poll hass_running connectable connection_in_progress last_poll
        now scan_interval = false) ∧
    (connection_in_progress = true →
      needs_poll hass_running connectable connection_in_progress last_poll
        now scan_interval = false) ∧
    (hass_running = true → connectable = true →
      connection_in_progress = false → last_poll = none →
      needs_poll hass_running connectable connection_in_progress last_poll
        now scan_interval = true) ∧
    (∀ lp, hass_running = true → connectable = true →
      connection_in_progress = false → last_poll = some lp →
      (needs_poll hass_running connectable connection_in_progress last_poll
        now scan_interval = true ↔ scan_interval ≤ now - lp)) := by
  refine ⟨?_, ?_, ?_, ?_, ?_⟩
  · intro h
    simp [needs_poll, h]
  · intro h
    cases hass_running <;> simp [needs_poll, h]
  · intro h
    cases hass_running <;> cases connectable <;> simp [needs_poll, h]
  · intro h1 h2 h3 h4
    simp [needs_poll, h1, h2, h3, h4]
  · intro lp h1 h2 h3 h4
    simp [needs_poll, h1, h2, h3, h4]

/-- Witness for C7 at concrete inputs: not running; no connectable handle;
connection in progress; never polled; polled 60 seconds ago with a
60-second interval. -/
theorem needs_poll_spec_witness :
    needs_poll false true false none 1000 60 = false ∧
    needs_poll true false false none 1000 60 = false ∧
    needs_poll true true true none 1000 60 = false ∧
    needs_poll true true false none 1000 60 = true ∧
    needs_poll true true false (some 940) 1000 60 = true :=
  ⟨(needs_poll_spec false true false none 1000 60).1 rfl,
   (needs_poll_spec true false false none 1000 60).2.1 rfl,
   (needs_poll_spec true true true none 1000 60).2.2.1 rfl,
   (needs_poll_spec true true false none 1000 60).2.2.2.1 rfl rfl rfl rfl,
   ((needs_poll_spec true true false (some 940) 1000 60).2.2.2.2 940
      rfl rfl rfl rfl).mpr (by decide)⟩

/-! ## Scan-interval configuration

`const.py` (both variants): `MIN_SCAN_INTERVAL = 10`, `MAX_SCAN_INTERVAL =
600`.  The two cores treat the configured interval differently. -/

def MIN_SCAN_INTERVAL : Int := 10

def MAX_SCAN_INTERVAL : Int := 600

/-- `RenogyBLEClient.__init__` (renogy_ha/ble.py): `self.scan_interval =
max(MIN_SCAN_INTERVAL, min(scan_interval, MAX_SCAN_INTERVAL))`. -/
def client_scan_interval (scan_interval : Int) : Int :=
  max MIN_SCAN_INTERVAL (min scan_interval MAX_SCAN_INTERVAL)

/-- `RenogyActiveBluetoothCoordinator.__init__` (renogy/ble.py):
`self.scan_interval = scan_interval`, stored as configured with no
clamping (the config flow only rejects out-of-range input). -/
def coordinator_scan_interval (scan_interval : Int) : Int := scan_interval

/-- Counterexample to C8 as stated: the coordinator core stores a configured
interval of 5 seconds as 5, not raised to `MIN_SCAN_INTERVAL = 10`. -/
theorem coordinator_scan_interval_not_clamped :
    coordinator_scan_interval 5 = 5 ∧
    ¬ MIN_SCAN_INTERVAL ≤ coordinator_scan_interval 5 := by
  constructor
  · rfl
  · decide

/-- C8 (amended): `RenogyBLEClient` clamps the configured interval into
`[MIN_SCAN_INTERVAL, MAX_SCAN_INTERVAL] = [10, 600]` — values below 10 are
raised to 10, values above 600 lowered to 600, in-range values kept —
while `RenogyActiveBluetoothCoordinator` uses the configured value as-is. -/
theorem scan_interval_clamping (n : Int) :
    MIN_SCAN_INTERVAL ≤ client_scan_interval n ∧
    client_scan_interval n ≤ MAX_SCAN_INTERVAL ∧
    (n < MIN_SCAN_INTERVAL → client_scan_interval n = MIN_SCAN_INTERVAL) ∧
    (MAX_SCAN_INTERVAL < n → client_scan_interval n = MAX_SCAN_INTERVAL) ∧
    (MIN_SCAN_INTERVAL ≤ n → n ≤ MAX_SCAN_INTERVAL →
      client_scan_interval n = n) ∧
    coordinator_scan_interval n = n := by
  simp only [client_scan_interval, coordinator_scan_interval,
    MIN_SCAN_INTERVAL, MAX_SCAN_INTERVAL, max_def, min_def]
  split_ifs <;> refine ⟨?_, ?_, ?_, ?_, ?_, ?_⟩ <;>
    first
      | rfl
      | trivial
      | omega

/-- Witness for C8 (amended) at the configured intervals 5, 1000 and 60. -/
theorem scan_interval_clamping_witness :
    client_scan_interval 5 = MIN_SCAN_INTERVAL ∧
    client_scan_interval 1000 = MAX_SCAN_INTERVAL ∧
    client_scan_interval 60 = 60 ∧
    coordinator_scan_interval 5 = 5 :=
  ⟨(scan_interval_clamping 5).2.2.1 (by decide),
   (scan_interval_clamping 1000).2.2.2.1 (by decide),
   (scan_interval_clamping 60).2.2.2.2.1 (by decide) (by decide),
   (scan_interval_clamping 5).2.2.2.2.2⟩

/-! ## Listener notification

`RenogyActiveBluetoothCoordinator.async_update_listeners` is a bare loop
`for update_callback in self._listeners: update_callback()` with no
per-listener try/except; `async_request_refresh` runs the same loop inside
its refresh-level `try`.  A listener invocation is modelled by its outcome:
`Except.ok ()` for a normal return, `Except.error ()` for a raised
exception. -/

/-- Outcome of invoking one listener callback. -/
abbrev ListenerResult := Except Unit Unit

/-- Whether a listener invocation returns normally. -/
def listener_ok (l : ListenerResult) : Bool :=
  match l with
  | Except.ok _ => true
  | Except.error _ => false

/-- The loop of `async_update_listeners`: invoke listeners in order; a raised
exception stops the loop and propagates.  Returns how many listeners were
invoked and the overall outcome. -/
def async_update_listeners : List ListenerResult → Nat × Except Unit Unit
  | [] => (0, Except.ok ())
  | l :: rest =>
    match l with
    | Except.error e => (1, Except.error e)
    | Except.ok _ =>
      let r := async_update_listeners rest
      (r.1 + 1, r.2)

/-- The listener-notification step of `async_request_refresh`: the loop runs
inside the refresh-level `try/except`, which catches a propagating listener
exception and sets `last_update_success = False`.  Returns how many listeners
were invoked and the resulting `last_update_success`. -/
def request_refresh_notify (ls : List ListenerResult) : Nat × Bool :=
  match (async_update_listeners ls).2 with
  | Except.ok _ => ((async_update_listeners ls).1, true)
  | Except.error _ => ((async_update_listeners ls).1, false)

/-- Counterexample to C9 as stated: with listeners `[raising, normal]`, only
1 of the 2 listeners is invoked — the listener after the raising one is not —
and the exception propagates out of `async_update_listeners` instead of being
caught and logged individually. -/
theorem listener_isolation_counterexample :
    (async_update_listeners [Except.error (), Except.ok ()]).1 = 1 ∧
    (async_update_listeners [Except.error (), Except.ok ()]).1 ≠ 2 ∧
    (async_update_listeners [Except.error (), Except.ok ()]).2
      = Except.error () := by
  refine ⟨rfl, ?_, rfl⟩
  decide

/-- C9 (amended): listener invocation failures are not isolated per listener:
the listeners are invoked in order only up to and including the first raising
one (all are invoked when none raises), and the exception propagates out of
`async_update_listeners`; in the refresh path the whole-loop `try/except` of
`async_request_refresh` catches it, so the poll cycle does not crash, but the
refresh is marked unsuccessful. -/
theorem listener_fault_handling (ls : List ListenerResult) :
    (async_update_listeners ls).1 =
      (if ls.all listener_ok then ls.length
       else (ls.takeWhile listener_ok).length + 1) ∧
    (async_update_listeners ls).2 =
      (if ls.all listener_ok then Except.ok () else Except.error ()) ∧
    (request_refresh_notify ls).2 = ls.all listener_ok := by
  induction ls with
  | nil => refine ⟨rfl, rfl, rfl⟩
  | cons l rest ih =>
    cases l with
    | error e =>
      refine ⟨?_, ?_, ?_⟩
      · simp [async_update_listeners, listener_ok]
      · simp [async_update_listeners, listener_ok]
      · simp [request_refresh_notify, async_update_listeners, listener_ok]
    | ok u =>
      refine ⟨?_, ?_, ?_⟩
      · cases ha : rest.all listener_ok with
        | true =>
          simp only [async_update_listeners, ih.1, ha, if_true]
          simp [listener_ok, ha]
        | false =>
          simp only [async_update_listeners, ih.1, ha, if_false]
          simp [listener_ok, ha]
      · cases ha : rest.all listener_ok with
        | true =>
          simp only [async_update_listeners, ih.2.1, ha, if_true]
          simp [listener_ok, ha]
        | false =>
          simp only [async_update_listeners, ih.2.1, ha, if_false]
          simp [listener_ok, ha]
      · cases ha : rest.all listener_ok with
        | true =>
          simp [request_refresh_notify, async_update_listeners, ih.2.1, ha,
            listener_ok]
        | false =>
          simp [request_refresh_notify, async_update_listeners, ih.2.1, ha,
            listener_ok]

end Renogy
